import Mathlib

/-!
Shallow embedding of the Trivoz/engine wireframe renderer
(`src/main.rs`, `src/cube.rs`).

Modelling conventions:
* Rust `f32` scalars are modelled by `ℚ`.  Every claim under study is a
  branch-structure or algebraic-shape property (which sums appear, when the
  homogeneous divide runs, which entries a matrix has), not a rounding
  property, so exact rational arithmetic is the faithful carrier.
* Rust's in-place writes (`o.x = ...`, `tri_projected.a.x += 1.0`) are
  modelled as sequenced record updates on local values, in source order.
* The integer cast `as i32` on a finite in-range value truncates toward
  zero; it is modelled by integer truncating division of the rational.
* Output effects (line-segment draw calls, strings printed to stdout) are
  modelled as explicit result lists.
-/

namespace Engine

/-- `Vector3D` from `main.rs`: a 3-component vector, one `f32` per axis. -/
structure Vector3D where
  x : ℚ
  y : ℚ
  z : ℚ
deriving DecidableEq

/-- `Vector3D::new` -/
def Vector3D.new (x y z : ℚ) : Vector3D := ⟨x, y, z⟩

/-- `impl Default for Vector3D`: the zero vector. -/
def Vector3D.default : Vector3D := ⟨0, 0, 0⟩

/-- `Triangle` from `main.rs`: three `Vector3D` vertices. -/
structure Triangle where
  a : Vector3D
  b : Vector3D
  c : Vector3D
deriving DecidableEq

/-- `Triangle::new` -/
def Triangle.new (a b c : Vector3D) : Triangle := ⟨a, b, c⟩

/-- `impl Default for Triangle`: all vertices zero. -/
def Triangle.default : Triangle :=
  ⟨Vector3D.default, Vector3D.default, Vector3D.default⟩

/-- `Matrix` from `main.rs`: `mat: [[f32; 4]; 4]`, indexed row-major. -/
structure Matrix where
  mat : Fin 4 → Fin 4 → ℚ

instance : DecidableEq Matrix := fun m n =>
  decidable_of_iff (m.mat = n.mat) (by cases m; cases n; simp)

/-- `Matrix::new`: construction from an explicit 4x4 array. -/
def Matrix.new (mat : Fin 4 → Fin 4 → ℚ) : Matrix := ⟨mat⟩

/-- `impl Default for Matrix`: the all-zero matrix. -/
def Matrix.default : Matrix := ⟨fun _ _ => 0⟩

/-- `multiply_matrix_vector` from `main.rs`: writes the three transformed
components into `o`, computes the homogeneous weight `w`, and divides the
three components by `w` exactly when `w != 0`.  Returns the output
vector; the input `i` is only read. -/
def multiply_matrix_vector (i o : Vector3D) (m : Matrix) : Vector3D :=
  let o := { o with x := i.x * m.mat 0 0 + i.y * m.mat 1 0 + i.z * m.mat 2 0 + m.mat 3 0 }
  let o := { o with y := i.x * m.mat 0 1 + i.y * m.mat 1 1 + i.z * m.mat 2 1 + m.mat 3 1 }
  let o := { o with z := i.x * m.mat 0 2 + i.y * m.mat 1 2 + i.z * m.mat 2 2 + m.mat 3 2 }
  let w : ℚ := i.x * m.mat 0 3 + i.y * m.mat 1 3 + i.z * m.mat 2 3 + m.mat 3 3
  if w ≠ 0 then { o with x := o.x / w, y := o.y / w, z := o.z / w } else o

/-- The `let w` line of `multiply_matrix_vector`, named so the analysis of
the homogeneous weight can refer to it: `w = i.x*m[0][3] + i.y*m[1][3] +
i.z*m[2][3] + m[3][3]`. -/
def homogeneous_w (i : Vector3D) (m : Matrix) : ℚ :=
  i.x * m.mat 0 3 + i.y * m.mat 1 3 + i.z * m.mat 2 3 + m.mat 3 3

/-- `Mesh` from `main.rs`: an ordered collection of triangles (the field is
called `mat` in the source). -/
structure Mesh where
  mat : List Triangle
deriving DecidableEq

/-- `Mesh::VECTOR_LIMIT`: the soft size limit, 50. -/
def Mesh.VECTOR_LIMIT : ℕ := 50

/-- `Mesh::warn_mesh_size`: returns the warning string when the triangle
list is longer than `VECTOR_LIMIT`, else `none`. -/
def Mesh.warn_mesh_size (mat : List Triangle) : Option String :=
  if mat.length > Mesh.VECTOR_LIMIT then
    some "Mesh is too big, consider splitting it up"
  else
    none

/-- The `warn::Warn` impl for `Mesh`: `println!("{}", stringify!(warning))`.
Its output is the literal token text `warning` (that is what `stringify!`
expands to), regardless of the argument.  Modelled as the list of lines a
call would print.  No code in the repository ever calls it. -/
def Mesh.warn (_warning : String) : List String := ["warning"]

/-- `Mesh::new`: calls `warn_mesh_size` on the triangle list — and discards
the returned `Option` — then constructs the mesh.  The second component
models the lines printed to stdout during construction: the body contains
no print and never calls `Mesh::warn`, so it is empty. -/
def Mesh.new (mat : List Triangle) : Mesh × List String :=
  let _warning : Option String := Mesh.warn_mesh_size mat
  (⟨mat⟩, [])

/-- `get_cube_mesh` from `cube.rs`: the 12 hard-coded triangles of the unit
cube (2 per face; faces in order south, east, north, west, top, bottom),
passed through `Mesh::new`. -/
def get_cube_mesh : Mesh :=
  let mesh_vertices : List (Vector3D × Vector3D × Vector3D) := [
    -- SOUTH
    (Vector3D.new 0 0 0, Vector3D.new 0 1 0, Vector3D.new 1 1 0),
    (Vector3D.new 0 0 0, Vector3D.new 1 1 0, Vector3D.new 1 0 0),
    -- EAST
    (Vector3D.new 1 0 0, Vector3D.new 1 1 0, Vector3D.new 1 1 1),
    (Vector3D.new 1 0 0, Vector3D.new 1 1 1, Vector3D.new 1 0 1),
    -- NORTH
    (Vector3D.new 1 0 1, Vector3D.new 1 1 1, Vector3D.new 0 1 1),
    (Vector3D.new 1 0 1, Vector3D.new 0 1 1, Vector3D.new 0 0 1),
    -- WEST
    (Vector3D.new 0 0 1, Vector3D.new 0 1 1, Vector3D.new 0 1 0),
    (Vector3D.new 0 0 1, Vector3D.new 0 1 0, Vector3D.new 0 0 0),
    -- TOP
    (Vector3D.new 0 1 0, Vector3D.new 0 1 1, Vector3D.new 1 1 1),
    (Vector3D.new 0 1 0, Vector3D.new 1 1 1, Vector3D.new 1 1 0),
    -- BOTTOM
    (Vector3D.new 1 0 1, Vector3D.new 0 0 1, Vector3D.new 0 0 0),
    (Vector3D.new 1 0 1, Vector3D.new 0 0 0, Vector3D.new 1 0 0)]
  (Mesh.new (mesh_vertices.map
    (fun triangle => Triangle.new triangle.1 triangle.2.1 triangle.2.2))).1

/-- `field_of_view` in `main`: 90 degrees. -/
def field_of_view : ℚ := 90

/-- `near_plane` in `main`: 0.1. -/
def near_plane : ℚ := 0.1

/-- `far_plane` in `main`: 1000. -/
def far_plane : ℚ := 1000

/-- The `projection_matrix` built in `main`.  `tan` abstracts the `f32`
tangent function; the source applies it directly to `field_of_view / 2`
with the field of view expressed in degrees (never converted to radians).
The later per-entry reassignments in `main` write the same six values
again and are no-ops over this literal. -/
def projection_matrix (tan : ℚ → ℚ) (display_width display_height : ℚ) : Matrix :=
  let aspect : ℚ := display_height / display_width  -- height over width, as in the source
  let scaling_factor : ℚ := 1 / tan (field_of_view / 2)
  { mat := ![![aspect * scaling_factor, 0, 0, 0],
             ![0, scaling_factor, 0, 0],
             ![0, 0, far_plane / (far_plane - near_plane), 1],
             ![0, 0, (-far_plane * near_plane) / (far_plane - near_plane), 0]] }

/-- `model_matrix` in `main`: the unused 4x4 identity array literal. -/
def model_matrix : Fin 4 → Fin 4 → ℚ :=
  ![![1, 0, 0, 0],  -- X
    ![0, 1, 0, 0],  -- Y
    ![0, 0, 1, 0],  -- Z
    ![0, 0, 0, 1]]  -- W

/-- Rust's `as i32` cast on a finite in-range `f32`: truncation toward
zero, modelled on `ℚ` by truncating integer division of numerator by
denominator. -/
def as_i32 (q : ℚ) : ℤ := q.num.tdiv q.den

/-- A line-segment draw request `(x0, y0) -> (x1, y1)` in integer pixel
coordinates, as accepted by the drawing surface. -/
abbrev Segment := (ℤ × ℤ) × (ℤ × ℤ)

/-- `Triangle::draw`: three `draw_line` calls a→b, b→c, c→a, each endpoint
cast with `as i32`. -/
def Triangle.draw (t : Triangle) : List Segment :=
  [((as_i32 t.a.x, as_i32 t.a.y), (as_i32 t.b.x, as_i32 t.b.y)),
   ((as_i32 t.b.x, as_i32 t.b.y), (as_i32 t.c.x, as_i32 t.c.y)),
   ((as_i32 t.c.x, as_i32 t.c.y), (as_i32 t.a.x, as_i32 t.a.y))]

/-- The body of the per-triangle loop in `main`, up to the `draw` call:
clone the triangle, add 3 to each vertex's z, project the three translated
vertices into the fresh `tri_projected` (initially `Triangle::default`),
then add 1 to each projected x and y and scale x by `0.5 * display_width`
and y by `0.5 * display_height`.  Every write is in source order. -/
def process_triangle (triangle : Triangle) (projection : Matrix)
    (display_width display_height : ℚ) : Triangle :=
  let tri_projected : Triangle := Triangle.default
  let tri_translated : Triangle := triangle
  let tri_translated := { tri_translated with a := { tri_translated.a with z := triangle.a.z + 3 } }
  let tri_translated := { tri_translated with b := { tri_translated.b with z := triangle.b.z + 3 } }
  let tri_translated := { tri_translated with c := { tri_translated.c with z := triangle.c.z + 3 } }
  let tri_projected := { tri_projected with a := multiply_matrix_vector tri_translated.a tri_projected.a projection }
  let tri_projected := { tri_projected with b := multiply_matrix_vector tri_translated.b tri_projected.b projection }
  let tri_projected := { tri_projected with c := multiply_matrix_vector tri_translated.c tri_projected.c projection }
  let tri_projected := { tri_projected with a := { tri_projected.a with x := tri_projected.a.x + 1 } }
  let tri_projected := { tri_projected with a := { tri_projected.a with y := tri_projected.a.y + 1 } }
  let tri_projected := { tri_projected with b := { tri_projected.b with x := tri_projected.b.x + 1 } }
  let tri_projected := { tri_projected with b := { tri_projected.b with y := tri_projected.b.y + 1 } }
  let tri_projected := { tri_projected with c := { tri_projected.c with x := tri_projected.c.x + 1 } }
  let tri_projected := { tri_projected with c := { tri_projected.c with y := tri_projected.c.y + 1 } }
  let tri_projected := { tri_projected with a := { tri_projected.a with x := tri_projected.a.x * (0.5 * display_width) } }
  let tri_projected := { tri_projected with a := { tri_projected.a with y := tri_projected.a.y * (0.5 * display_height) } }
  let tri_projected := { tri_projected with b := { tri_projected.b with x := tri_projected.b.x * (0.5 * display_width) } }
  let tri_projected := { tri_projected with b := { tri_projected.b with y := tri_projected.b.y * (0.5 * display_height) } }
  let tri_projected := { tri_projected with c := { tri_projected.c with x := tri_projected.c.x * (0.5 * display_width) } }
  let tri_projected := { tri_projected with c := { tri_projected.c with y := tri_projected.c.y * (0.5 * display_height) } }
  tri_projected

/-- One full iteration of the per-triangle loop.  The iterator hands the
body a mutable reference to the mesh triangle; the body only reads it, so
the value written back (first component) is the triangle itself.  The
second component is the draw calls the iteration emits. -/
def frame_body (triangle : Triangle) (projection : Matrix)
    (display_width display_height : ℚ) : Triangle × List Segment :=
  let tri_projected := process_triangle triangle projection display_width display_height
  (triangle, tri_projected.draw)

/-- One iteration of the `'running` frame loop over the whole mesh: the
mesh after the loop (each triangle replaced by what its iteration wrote
back), the projection matrix (only ever read), and the draw calls emitted
in mesh iteration order. -/
def render_frame (mesh : Mesh) (projection : Matrix)
    (display_width display_height : ℚ) : Mesh × Matrix × List Segment :=
  (⟨mesh.mat.map (fun triangle => (frame_body triangle projection display_width display_height).1)⟩,
   projection,
   mesh.mat.flatMap (fun triangle => (frame_body triangle projection display_width display_height).2))

/-! Spec-side definitions, written from the spec's words, to be compared
with the embedded source above. -/

/-- Spec §4.1: the identity matrix — 1 at the four diagonal entries, 0
everywhere else. -/
def identity_matrix_spec : Matrix :=
  ⟨fun i j => if i = j then 1 else 0⟩

/-- Spec §4.4 step 1: a translated copy keeping x and y, adding 3 to z. -/
def translate_step (t : Triangle) : Triangle :=
  ⟨⟨t.a.x, t.a.y, t.a.z + 3⟩, ⟨t.b.x, t.b.y, t.b.z + 3⟩, ⟨t.c.x, t.c.y, t.c.z + 3⟩⟩

/-- Spec §4.4 step 2: project one vertex through the projection routine
into a fresh (default-initialised) output vector. -/
def project_vertex (v : Vector3D) (m : Matrix) : Vector3D :=
  multiply_matrix_vector v Vector3D.default m

/-- Spec §4.4 step 2: project the three vertices independently into a
fresh triangle. -/
def project_step (t : Triangle) (m : Matrix) : Triangle :=
  ⟨project_vertex t.a m, project_vertex t.b m, project_vertex t.c m⟩

/-- Spec §4.4 step 3: add 1 to x and y, then multiply x by
`0.5 * display_width` and y by `0.5 * display_height`; z unchanged. -/
def viewport_step (t : Triangle) (display_width display_height : ℚ) : Triangle :=
  ⟨⟨(t.a.x + 1) * (0.5 * display_width), (t.a.y + 1) * (0.5 * display_height), t.a.z⟩,
   ⟨(t.b.x + 1) * (0.5 * display_width), (t.b.y + 1) * (0.5 * display_height), t.b.z⟩,
   ⟨(t.c.x + 1) * (0.5 * display_width), (t.c.y + 1) * (0.5 * display_height), t.c.z⟩⟩

/-- Spec §4.4 step 4: the three line segments a→b, b→c, c→a of a
screen-space triangle, each coordinate truncated to an integer. -/
def edges_spec (t : Triangle) : List Segment :=
  [((as_i32 t.a.x, as_i32 t.a.y), (as_i32 t.b.x, as_i32 t.b.y)),
   ((as_i32 t.b.x, as_i32 t.b.y), (as_i32 t.c.x, as_i32 t.c.y)),
   ((as_i32 t.c.x, as_i32 t.c.y), (as_i32 t.a.x, as_i32 t.a.y))]

/-- All 36 vertex positions of the cube mesh, in mesh order. -/
def cube_vertices : List Vector3D :=
  get_cube_mesh.mat.flatMap (fun t => [t.a, t.b, t.c])

/-- The 8 corner points of the unit cube with corners (0,0,0)–(1,1,1). -/
def unit_cube_corners : List Vector3D :=
  [⟨0, 0, 0⟩, ⟨0, 0, 1⟩, ⟨0, 1, 0⟩, ⟨0, 1, 1⟩,
   ⟨1, 0, 0⟩, ⟨1, 0, 1⟩, ⟨1, 1, 0⟩, ⟨1, 1, 1⟩]

/-- The 36 cube-mesh vertices after the per-frame +3 depth translation. -/
def translated_cube_vertices : List Vector3D :=
  get_cube_mesh.mat.flatMap (fun t =>
    [{ t.a with z := t.a.z + 3 }, { t.b with z := t.b.z + 3 }, { t.c with z := t.c.z + 3 }])

/-- Helper: every translated cube vertex has z equal to 3 or 4. -/
theorem mem_translated_cube_vertices_z {v : Vector3D}
    (h : v ∈ translated_cube_vertices) : v.z = 3 ∨ v.z = 4 := by
  revert h
  have : ∀ u ∈ translated_cube_vertices, u.z = 3 ∨ u.z = 4 := by
    simp [translated_cube_vertices, get_cube_mesh, Mesh.new, Triangle.new, Vector3D.new]
    norm_num
  exact this v

/-- C1: the projection routine returns `(x', y', z')` with
`x' = i.x*m[0][0] + i.y*m[1][0] + i.z*m[2][0] + m[3][0]` (columns 1 and 2
analogously for `y'`, `z'`), each divided by the homogeneous weight
`w = i.x*m[0][3] + i.y*m[1][3] + i.z*m[2][3] + m[3][3]` exactly when
`w ≠ 0` (exact equality test, no epsilon); when `w = 0` the undivided
triple is returned — no error, no clamping, no substituted default.  The
result does not depend on the initial output vector `o`, and the input is
only read. -/
theorem multiply_matrix_vector_projects (i o : Vector3D) (m : Matrix) :
    multiply_matrix_vector i o m =
      (let xp := i.x * m.mat 0 0 + i.y * m.mat 1 0 + i.z * m.mat 2 0 + m.mat 3 0
       let yp := i.x * m.mat 0 1 + i.y * m.mat 1 1 + i.z * m.mat 2 1 + m.mat 3 1
       let zp := i.x * m.mat 0 2 + i.y * m.mat 1 2 + i.z * m.mat 2 2 + m.mat 3 2
       let w := i.x * m.mat 0 3 + i.y * m.mat 1 3 + i.z * m.mat 2 3 + m.mat 3 3
       if w = 0 then ⟨xp, yp, zp⟩ else ⟨xp / w, yp / w, zp / w⟩) := by
  simp only [multiply_matrix_vector]
  split_ifs with h h' <;> first | rfl | simp_all

/-- C2: per frame, each mesh triangle is translated (x and y kept, 3 added
to z), its three translated vertices are projected independently through
the projection routine into a fresh triangle, the viewport transform adds
1 to x and y and then scales x by `0.5 * display_width` and y by
`0.5 * display_height` leaving z unchanged, and exactly three line
segments a→b, b→c, c→a are emitted per triangle, coordinates truncated to
integers, once per triangle per frame in mesh iteration order. -/
theorem render_frame_pipeline (mesh : Mesh) (pm : Matrix)
    (display_width display_height : ℚ) :
    (∀ t : Triangle, process_triangle t pm display_width display_height =
        viewport_step (project_step (translate_step t) pm) display_width display_height) ∧
    (render_frame mesh pm display_width display_height).2.2 =
      mesh.mat.flatMap (fun t =>
        edges_spec
          (viewport_step (project_step (translate_step t) pm) display_width display_height)) :=
  ⟨fun _ => rfl, rfl⟩

/-- C3: the cube-mesh factory returns exactly 12 triangles, and the set of
their 36 vertex positions is exactly the 8 corners of the unit cube with
corners (0,0,0)–(1,1,1) (so each corner appears in at least one
triangle). -/
theorem get_cube_mesh_unit_cube :
    get_cube_mesh.mat.length = 12 ∧
      cube_vertices.toFinset = unit_cube_corners.toFinset := by
  decide

/-- C4: the projection matrix has `mat[0][0] = aspect * scale`,
`mat[1][1] = scale`, `mat[2][2] = far / (far - near)`,
`mat[3][2] = (-far * near) / (far - near)`, `mat[2][3] = 1`,
`mat[3][3] = 0`, and all ten remaining entries 0, where
`aspect = display_height / display_width` and
`scale = 1 / tan (field_of_view / 2)` with the tangent applied directly to
the field-of-view value of 90 degrees (no radian conversion appears in the
half-angle argument). -/
theorem projection_matrix_entries (tan : ℚ → ℚ) (display_width display_height : ℚ) :
    field_of_view = 90 ∧
    (projection_matrix tan display_width display_height).mat 0 0 =
      (display_height / display_width) * (1 / tan (field_of_view / 2)) ∧
    (projection_matrix tan display_width display_height).mat 1 1 =
      1 / tan (field_of_view / 2) ∧
    (projection_matrix tan display_width display_height).mat 2 2 =
      far_plane / (far_plane - near_plane) ∧
    (projection_matrix tan display_width display_height).mat 3 2 =
      (-far_plane * near_plane) / (far_plane - near_plane) ∧
    (projection_matrix tan display_width display_height).mat 2 3 = 1 ∧
    (projection_matrix tan display_width display_height).mat 3 3 = 0 ∧
    (projection_matrix tan display_width display_height).mat 0 1 = 0 ∧
    (projection_matrix tan display_width display_height).mat 0 2 = 0 ∧
    (projection_matrix tan display_width display_height).mat 0 3 = 0 ∧
    (projection_matrix tan display_width display_height).mat 1 0 = 0 ∧
    (projection_matrix tan display_width display_height).mat 1 2 = 0 ∧
    (projection_matrix tan display_width display_height).mat 1 3 = 0 ∧
    (projection_matrix tan display_width display_height).mat 2 0 = 0 ∧
    (projection_matrix tan display_width display_height).mat 2 1 = 0 ∧
    (projection_matrix tan display_width display_height).mat 3 0 = 0 ∧
    (projection_matrix tan display_width display_height).mat 3 1 = 0 :=
  ⟨rfl, rfl, rfl, rfl, rfl, rfl, rfl, rfl, rfl, rfl, rfl, rfl, rfl, rfl, rfl, rfl, rfl⟩

/-- C5: the mesh size check returns a warning value if and only if the
triangle count exceeds the limit 50; in particular it warns at 51
triangles and returns none at 50 and at 12. -/
theorem warn_mesh_size_iff :
    Mesh.VECTOR_LIMIT = 50 ∧
    (∀ ts : List Triangle, (Mesh.warn_mesh_size ts).isSome ↔ ts.length > 50) ∧
    (Mesh.warn_mesh_size (List.replicate 51 Triangle.default)).isSome = true ∧
    Mesh.warn_mesh_size (List.replicate 50 Triangle.default) = none ∧
    Mesh.warn_mesh_size (List.replicate 12 Triangle.default) = none := by
  refine ⟨rfl, fun ts => ?_, by decide, by decide, by decide⟩
  simp only [Mesh.warn_mesh_size, Mesh.VECTOR_LIMIT]
  split_ifs with h <;> simp [h]

/-- C6: constructing a Mesh from any triangle list `ts` — also above the
50-triangle limit — yields a Mesh holding exactly the triangles of `ts`,
unchanged and in order; the size check invoked by `Mesh::new` never blocks
construction, alters the data, or removes elements. -/
theorem mesh_new_preserves_triangles :
    (∀ ts : List Triangle, (Mesh.new ts).1.mat = ts) ∧
    (Mesh.new (List.replicate 51 Triangle.default)).1.mat =
      List.replicate 51 Triangle.default :=
  ⟨fun _ => rfl, rfl⟩

/-- C7: at 51 triangles the size check does produce the warning string,
but `Mesh::new` discards it and prints nothing — no warning reaches the
logging/diagnostics output at construction time. -/
theorem mesh_new_delivers_no_warning :
    Mesh.warn_mesh_size (List.replicate 51 Triangle.default) =
      some "Mesh is too big, consider splitting it up" ∧
    (Mesh.new (List.replicate 51 Triangle.default)).2 = [] :=
  ⟨rfl, rfl⟩

/-- C8 counterexample: no constructor of the `Matrix` type returns the
identity matrix.  The API surface is `Matrix::new` (returns exactly the
array it is given), `Default::default` (the zero matrix) and `Clone`;
`default`, the only constructor without an explicit array argument,
differs from the identity matrix, and `new` on a non-identity array (for
example the zero array it receives from `default`) is not the identity
either. -/
theorem matrix_has_no_identity_constructor :
    Matrix.default ≠ identity_matrix_spec ∧
    Matrix.new (fun _ _ => 0) ≠ identity_matrix_spec ∧
    Matrix.default.mat 0 0 = 0 := by
  refine ⟨by decide, by decide, rfl⟩

/-- C8 amended: the matrix API supports construction from an explicit 4x4
array (`Matrix::new`) and an all-zero default, but no separate
identity-matrix constructor; the identity matrix (1 at the four diagonal
entries, 0 elsewhere) appears only as the unused `model_matrix` array
literal in `main`, and applying `Matrix::new` to that literal yields
exactly the identity matrix. -/
theorem model_matrix_is_identity :
    Matrix.new model_matrix = identity_matrix_spec ∧
    Matrix.default = Matrix.new (fun _ _ => 0) := by
  refine ⟨by decide, rfl⟩

/-- C9: one iteration of the per-frame render loop leaves the base mesh
and the projection matrix unchanged: the mesh written back by the loop
equals the input mesh triangle for triangle, and the projection matrix is
only read.  All translation and projection writes land in the fresh
per-iteration copies inside `process_triangle`. -/
theorem render_frame_preserves_state (mesh : Mesh) (pm : Matrix)
    (display_width display_height : ℚ) :
    (render_frame mesh pm display_width display_height).1 = mesh ∧
    (render_frame mesh pm display_width display_height).2.1 = pm := by
  refine ⟨?_, rfl⟩
  cases mesh
  simp [render_frame, frame_body]

/-- C10: under the projection matrix the program constructs (perspective
column `m[0][3] = 0`, `m[1][3] = 0`, `m[2][3] = 1`, `m[3][3] = 0`), the
homogeneous weight computed by the projection routine equals the input's z
component exactly; hence for every cube vertex after the fixed +3 depth
translation the weight is nonzero and the perspective divide is always
performed — the `w = 0` branch is unreachable in the render loop. -/
theorem projection_divide_always (tan : ℚ → ℚ) (display_width display_height : ℚ)
    (i o : Vector3D) :
    homogeneous_w i (projection_matrix tan display_width display_height) = i.z ∧
    (i ∈ translated_cube_vertices →
      homogeneous_w i (projection_matrix tan display_width display_height) ≠ 0 ∧
      multiply_matrix_vector i o (projection_matrix tan display_width display_height) =
        { x := (i.x * (projection_matrix tan display_width display_height).mat 0 0
              + i.y * (projection_matrix tan display_width display_height).mat 1 0
              + i.z * (projection_matrix tan display_width display_height).mat 2 0
              + (projection_matrix tan display_width display_height).mat 3 0) / i.z,
          y := (i.x * (projection_matrix tan display_width display_height).mat 0 1
              + i.y * (projection_matrix tan display_width display_height).mat 1 1
              + i.z * (projection_matrix tan display_width display_height).mat 2 1
              + (projection_matrix tan display_width display_height).mat 3 1) / i.z,
          z := (i.x * (projection_matrix tan display_width display_height).mat 0 2
              + i.y * (projection_matrix tan display_width display_height).mat 1 2
              + i.z * (projection_matrix tan display_width display_height).mat 2 2
              + (projection_matrix tan display_width display_height).mat 3 2) / i.z }) := by
  have hw : homogeneous_w i (projection_matrix tan display_width display_height) = i.z := by
    simp [homogeneous_w, projection_matrix]
  refine ⟨hw, fun hmem => ?_⟩
  have hz : i.z = 3 ∨ i.z = 4 := mem_translated_cube_vertices_z hmem
  have hz0 : i.z ≠ 0 := by rcases hz with h | h <;> rw [h] <;> norm_num
  refine ⟨by rw [hw]; exact hz0, ?_⟩
  simp only [multiply_matrix_vector, projection_matrix]
  simp [hz0]

/-- Witness for C10 at the first translated cube vertex (0,0,3), with the
identity function standing in for the tangent and a 2x2 display. -/
theorem projection_divide_always_witness :
    homogeneous_w ⟨0, 0, 3⟩ (projection_matrix (fun q => q) 2 2) = 3 ∧
    (homogeneous_w ⟨0, 0, 3⟩ (projection_matrix (fun q => q) 2 2) ≠ 0 ∧
      multiply_matrix_vector ⟨0, 0, 3⟩ Vector3D.default (projection_matrix (fun q => q) 2 2) =
        { x := ((0 : ℚ) * (projection_matrix (fun q => q) 2 2).mat 0 0
              + 0 * (projection_matrix (fun q => q) 2 2).mat 1 0
              + 3 * (projection_matrix (fun q => q) 2 2).mat 2 0
              + (projection_matrix (fun q => q) 2 2).mat 3 0) / 3,
          y := ((0 : ℚ) * (projection_matrix (fun q => q) 2 2).mat 0 1
              + 0 * (projection_matrix (fun q => q) 2 2).mat 1 1
              + 3 * (projection_matrix (fun q => q) 2 2).mat 2 1
              + (projection_matrix (fun q => q) 2 2).mat 3 1) / 3,
          z := ((0 : ℚ) * (projection_matrix (fun q => q) 2 2).mat 0 2
              + 0 * (projection_matrix (fun q => q) 2 2).mat 1 2
              + 3 * (projection_matrix (fun q => q) 2 2).mat 2 2
              + (projection_matrix (fun q => q) 2 2).mat 3 2) / 3 }) :=
  ⟨(projection_divide_always (fun q => q) 2 2 ⟨0, 0, 3⟩ Vector3D.default).1,
   (projection_divide_always (fun q => q) 2 2 ⟨0, 0, 3⟩ Vector3D.default).2 (by
     simp [translated_cube_vertices, get_cube_mesh, Mesh.new, Triangle.new, Vector3D.new])⟩

end Engine
